import Mathlib

/-!
Verification development for the MailLaser inbound SMTP-to-webhook bridge.

The definitions below are a shallow embedding of the program:

* `SmtpState`, `SmtpCommandResult`, `processCommand` embed the per-command
  state machine of `SmtpProtocol::process_command` (src/smtp/smtp_protocol.rs).
  The external `mailparse::addrparse`-based address extraction is abstracted
  as a function parameter `ext : String -> Option String`.
* `Session`, `sessionStep` embed one iteration of the command loop of
  `handle_connection` (src/smtp/mod.rs), including the EOF check, the
  allow-list validation on RCPT TO, the envelope bookkeeping, and the
  parse-and-forward behaviour on end of DATA.  The external MIME parser
  (`EmailParser::parse`, backed by the mailparse crate) is abstracted as a
  parameter `parse : String -> Except String ParseOut`.  Socket writes,
  the parse invocation and the webhook delivery call are recorded as an
  ordered event list (`Ev`).
* `secureSessionStep` embeds one iteration of the loop of
  `handle_secure_session` (src/smtp/mod.rs), whose end-of-DATA branch
  propagates parser errors with the question-mark operator.
* `WebhookModel`, `circuitCheck`, `wloop`, `webhookTrace`, `dispatchEvents`
  embed the `ForwardEmail` handler of `WebhookState::create`
  (src/webhook/mod.rs): the circuit-breaker prologue and the timeout/retry
  delivery loop.  Attempt outcomes are abstracted as a function
  `o : Nat -> AttemptResult`.
* `EmailPayload`, `emailPayloadFields` embed the `EmailPayload` struct and
  its serde JSON serialisation (field order and the
  `skip_serializing_if = "Option::is_none"` attributes).
* `getFirstValue`, `subjectOf` embed the Subject-header extraction of
  `EmailParser::parse` (src/smtp/email_parser.rs): a case-insensitive
  first-match header lookup defaulting to the empty string.

Rust `str::to_uppercase` / `to_lowercase` / `starts_with` /
`split_whitespace` are modelled by the character-wise functions
`strToUpper`, `strToLower`, `strStartsWith`, `splitWords` below (they agree
with the Rust primitives on ASCII, which covers every protocol literal).
-/

namespace MailLaser

/-- Model of Rust `str::to_uppercase` (ASCII range), character-wise over the
string contents. -/
def strToUpper (s : String) : String :=
  String.mk (s.data.map Char.toUpper)

/-- Model of Rust `str::to_lowercase` (ASCII range), character-wise over the
string contents. -/
def strToLower (s : String) : String :=
  String.mk (s.data.map Char.toLower)

/-- Model of Rust `str::starts_with` on strings. -/
def strStartsWith (s pat : String) : Bool :=
  pat.data.isPrefixOf s.data

/-- Helper for `splitWords`: accumulate the current word (reversed) while
scanning the character list. -/
def splitWordsAux : List Char → List Char → List String
  | [], acc => if acc.isEmpty then [] else [String.mk acc.reverse]
  | c :: cs, acc =>
    if c.isWhitespace then
      if acc.isEmpty then splitWordsAux cs []
      else String.mk acc.reverse :: splitWordsAux cs []
    else splitWordsAux cs (c :: acc)

/-- Model of Rust `str::split_whitespace`: the maximal non-empty runs of
non-whitespace characters. -/
def splitWords (s : String) : List String :=
  splitWordsAux s.data []

/-- States of an SMTP session, from `SmtpState` in src/smtp/smtp_protocol.rs. -/
inductive SmtpState where
  | initial
  | greeted
  | mailFrom
  | rcptTo
  | data
deriving DecidableEq, Repr

/-- Outcome of processing one command line, from `SmtpCommandResult` in
src/smtp/smtp_protocol.rs. -/
inductive SmtpCommandResult where
  | cont
  | quit
  | mailFrom (email : String)
  | rcptTo (email : String)
  | dataStart
  | dataLine (line : String)
  | dataEnd
  | startTls
deriving DecidableEq, Repr

/-- Embedding of `SmtpProtocol::process_command` (src/smtp/smtp_protocol.rs,
lines 88-210).  Returns the new protocol state, the lines written to the
client by this call (in order), and the `SmtpCommandResult`.  The
`mailparse::addrparse`-based `extract_email` helper is abstracted as `ext`. -/
def processCommand (ext : String → Option String) (st : SmtpState) (line : String) :
    SmtpState × List String × SmtpCommandResult :=
  match st with
  | SmtpState.initial =>
    let upper := strToUpper line
    if strStartsWith upper "HELO" then
      (SmtpState.greeted, ["250 MailLaser"], SmtpCommandResult.cont)
    else if strStartsWith upper "EHLO" then
      let domain := (splitWords line).getD 1 "client"
      (SmtpState.greeted, ["250-MailLaser greets " ++ domain, "250 STARTTLS"],
        SmtpCommandResult.cont)
    else if strStartsWith (strToUpper line) "QUIT" then
      (SmtpState.initial, ["221 Bye"], SmtpCommandResult.quit)
    else
      (SmtpState.initial, ["500 Command not recognized or out of sequence"],
        SmtpCommandResult.cont)
  | SmtpState.greeted =>
    let upper := strToUpper line
    if strStartsWith upper "MAIL FROM:" then
      match ext line with
      | some email => (SmtpState.mailFrom, ["250 OK"], SmtpCommandResult.mailFrom email)
      | none =>
        (SmtpState.greeted, ["501 Syntax error in MAIL FROM parameters"],
          SmtpCommandResult.cont)
    else if strStartsWith upper "STARTTLS" then
      (SmtpState.greeted, ["220 Go ahead"], SmtpCommandResult.startTls)
    else if strStartsWith upper "QUIT" then
      (SmtpState.greeted, ["221 Bye"], SmtpCommandResult.quit)
    else
      (SmtpState.greeted, ["503 Bad sequence of commands (expected MAIL FROM or STARTTLS)"],
        SmtpCommandResult.cont)
  | SmtpState.mailFrom =>
    if strStartsWith (strToUpper line) "RCPT TO:" then
      match ext line with
      | some email => (SmtpState.rcptTo, [], SmtpCommandResult.rcptTo email)
      | none =>
        (SmtpState.mailFrom, ["501 Syntax error in RCPT TO parameters"],
          SmtpCommandResult.cont)
    else if strStartsWith (strToUpper line) "QUIT" then
      (SmtpState.mailFrom, ["221 Bye"], SmtpCommandResult.quit)
    else
      (SmtpState.mailFrom, ["503 Bad sequence of commands (expected RCPT TO)"],
        SmtpCommandResult.cont)
  | SmtpState.rcptTo =>
    if strStartsWith (strToUpper line) "DATA" then
      (SmtpState.data, ["354 Start mail input; end with <CRLF>.<CRLF>"],
        SmtpCommandResult.dataStart)
    else if strStartsWith (strToUpper line) "RCPT TO:" then
      match ext line with
      | some email => (SmtpState.rcptTo, [], SmtpCommandResult.rcptTo email)
      | none =>
        (SmtpState.rcptTo, ["501 Syntax error in RCPT TO parameters"],
          SmtpCommandResult.cont)
    else if strStartsWith (strToUpper line) "QUIT" then
      (SmtpState.rcptTo, ["221 Bye"], SmtpCommandResult.quit)
    else
      (SmtpState.rcptTo, ["503 Bad sequence of commands (expected DATA or RCPT TO)"],
        SmtpCommandResult.cont)
  | SmtpState.data =>
    if line = "." then
      (SmtpState.greeted, ["250 OK: Message accepted for delivery"], SmtpCommandResult.dataEnd)
    else
      (SmtpState.data, [], SmtpCommandResult.dataLine line)

/-- The payload struct sent to the webhook, from `EmailPayload` in
src/webhook/mod.rs.  The `headers` map is modelled as an association list. -/
structure EmailPayload where
  sender : String
  senderName : Option String
  recipient : String
  subject : String
  body : String
  htmlBody : Option String
  headers : Option (List (String × String))
deriving DecidableEq, Repr

/-- Result of `EmailParser::parse` as consumed by the session handlers in
src/smtp/mod.rs: `(subject, from_name, text_body, html_body)`. -/
structure ParseOut where
  subject : String
  fromName : Option String
  textBody : String
  htmlBody : Option String
deriving DecidableEq, Repr

/-- Observable actions of one session-loop iteration, in program order:
lines written to the client, the invocation of the MIME parser on the
collected DATA bytes, the webhook delivery call, and log-only branches. -/
inductive Ev where
  | write (line : String)
  | parseData (data : String)
  | deliver (payload : EmailPayload)
  | logWarn (msg : String)
  | logErr (msg : String)
deriving DecidableEq, Repr

/-- Per-connection mutable state of `handle_connection` /
`handle_secure_session` (src/smtp/mod.rs): the protocol state plus the
`sender`, `accepted_recipient`, `email_data` and `collecting_data`
variables. -/
structure Session where
  protoState : SmtpState
  sender : String
  acceptedRecipient : String
  emailData : String
  collectingData : Bool
deriving DecidableEq, Repr

/-- Outcome of one iteration of the `handle_connection` command loop. -/
inductive StepOut where
  | exitClean (events : List Ev)
  | startTlsOut (events : List Ev)
  | next (s : Session) (events : List Ev)
deriving DecidableEq, Repr

/-- Embedding of one iteration of the command loop of `handle_connection`
(src/smtp/mod.rs, lines 170-283): the EOF check (skipped in the `Data`
state), `process_command`, and the handler of each `SmtpCommandResult`,
including the allow-list check on RCPT TO, the envelope check on
`DataStart`, line accumulation, and the parse-and-forward sequence on
`DataEnd`. -/
def sessionStep (ext : String → Option String) (parse : String → Except String ParseOut)
    (targets : List String) (s : Session) (line : String) : StepOut :=
  if s.protoState ≠ SmtpState.data ∧ line = "" then
    StepOut.exitClean []
  else
    let r := processCommand ext s.protoState line
    let wr := r.2.1.map Ev.write
    let s1 : Session := { s with protoState := r.1 }
    match r.2.2 with
    | SmtpCommandResult.startTls => StepOut.startTlsOut wr
    | SmtpCommandResult.quit => StepOut.exitClean wr
    | SmtpCommandResult.cont => StepOut.next s1 wr
    | SmtpCommandResult.mailFrom email => StepOut.next { s1 with sender := email } wr
    | SmtpCommandResult.rcptTo email =>
      if targets.any (fun target => strToLower target == strToLower email) then
        StepOut.next { s1 with acceptedRecipient := email } (wr ++ [Ev.write "250 OK"])
      else
        StepOut.next { s1 with acceptedRecipient := "" }
          (wr ++ [Ev.write "550 No such user here"])
    | SmtpCommandResult.dataStart =>
      if s1.sender = "" ∨ s1.acceptedRecipient = "" then
        StepOut.next s1
          (wr ++ [Ev.write "503 Bad sequence of commands (MAIL FROM and RCPT TO required first)"])
      else
        StepOut.next { s1 with collectingData := true, emailData := "" } wr
    | SmtpCommandResult.dataLine content =>
      if s1.collectingData then
        StepOut.next { s1 with emailData := s1.emailData ++ content ++ "\r\n" } wr
      else
        StepOut.next s1 (wr ++ [Ev.logWarn "Received DataLine result when not in Data state."])
    | SmtpCommandResult.dataEnd =>
      let s2 : Session := { s1 with collectingData := false }
      if s2.sender = "" ∨ s2.acceptedRecipient = "" then
        StepOut.next { s2 with sender := "", acceptedRecipient := "", emailData := "" }
          (wr ++ [Ev.logWarn "DataEnd received but sender or recipient was missing."])
      else
        match parse s2.emailData with
        | Except.ok pr =>
          let payload : EmailPayload :=
            { sender := s2.sender, senderName := pr.fromName,
              recipient := s2.acceptedRecipient, subject := pr.subject,
              body := pr.textBody, htmlBody := pr.htmlBody, headers := none }
          StepOut.next { s2 with sender := "", acceptedRecipient := "", emailData := "" }
            (wr ++ [Ev.parseData s2.emailData, Ev.deliver payload])
        | Except.error e =>
          StepOut.next { s2 with sender := "", acceptedRecipient := "", emailData := "" }
            (wr ++ [Ev.parseData s2.emailData, Ev.logErr e])

/-- Outcome of one iteration of the `handle_secure_session` command loop.
`errExit` models the question-mark propagation of a parser error, which
makes the function return `Err` and ends the secure session. -/
inductive SecOut where
  | exitClean (events : List Ev)
  | errExit (events : List Ev) (msg : String)
  | next (s : Session) (events : List Ev)
deriving DecidableEq, Repr

/-- Embedding of one iteration of the command loop of
`handle_secure_session` (src/smtp/mod.rs, lines 388-472).  Differences from
`sessionStep` that matter here: `DataStart` starts collecting without an
envelope check, a `DataLine` outside collecting mode is silently ignored,
`DataEnd` calls `EmailParser::parse` with the question-mark operator (an
error terminates the session), and a `StartTls` inside the TLS session is
answered with 503. -/
def secureSessionStep (ext : String → Option String)
    (parse : String → Except String ParseOut)
    (targets : List String) (s : Session) (line : String) : SecOut :=
  if s.protoState ≠ SmtpState.data ∧ line = "" then
    SecOut.exitClean []
  else
    let r := processCommand ext s.protoState line
    let wr := r.2.1.map Ev.write
    let s1 : Session := { s with protoState := r.1 }
    match r.2.2 with
    | SmtpCommandResult.startTls =>
      SecOut.next s1 (wr ++ [Ev.write "503 STARTTLS already active"])
    | SmtpCommandResult.quit => SecOut.exitClean wr
    | SmtpCommandResult.cont => SecOut.next s1 wr
    | SmtpCommandResult.mailFrom email => SecOut.next { s1 with sender := email } wr
    | SmtpCommandResult.rcptTo email =>
      if targets.any (fun target => strToLower target == strToLower email) then
        SecOut.next { s1 with acceptedRecipient := email } (wr ++ [Ev.write "250 OK"])
      else
        SecOut.next { s1 with acceptedRecipient := "" }
          (wr ++ [Ev.write "550 No such user here"])
    | SmtpCommandResult.dataStart =>
      SecOut.next { s1 with collectingData := true, emailData := "" } wr
    | SmtpCommandResult.dataLine content =>
      if s1.collectingData then
        SecOut.next { s1 with emailData := s1.emailData ++ content ++ "\r\n" } wr
      else
        SecOut.next s1 wr
    | SmtpCommandResult.dataEnd =>
      let s2 : Session := { s1 with collectingData := false }
      match parse s2.emailData with
      | Except.ok pr =>
        let payload : EmailPayload :=
          { sender := s2.sender, senderName := pr.fromName,
            recipient := s2.acceptedRecipient, subject := pr.subject,
            body := pr.textBody, htmlBody := pr.htmlBody, headers := none }
        SecOut.next { s2 with sender := "", acceptedRecipient := "", emailData := "" }
          (wr ++ [Ev.parseData s2.emailData, Ev.deliver payload])
      | Except.error e => SecOut.errExit (wr ++ [Ev.parseData s2.emailData]) e

/-- Runs `sessionStep` over a list of input lines, accumulating events.
Returns `some` final session when all lines were consumed with the loop
still running, `none` when the loop exited (QUIT, EOF or STARTTLS). -/
def runLines (ext : String → Option String) (parse : String → Except String ParseOut)
    (targets : List String) : List String → Session → Option Session × List Ev
  | [], s => (some s, [])
  | l :: ls, s =>
    match sessionStep ext parse targets s l with
    | StepOut.next s' evs =>
      let rest := runLines ext parse targets ls s'
      (rest.1, evs ++ rest.2)
    | StepOut.exitClean evs => (none, evs)
    | StepOut.startTlsOut evs => (none, evs)

/-- Outcome of one HTTPS delivery attempt as distinguished by the match in
the retry loop of `WebhookState::create` (src/webhook/mod.rs): `ok` is
`Ok(Ok(()))` (2xx within the deadline), `errResp` is `Ok(Err(e))` (a non-2xx
response or a transport error, both of which `forward_email` returns as
`Err`), `timedOut` is `Err(_)` from `tokio::time::timeout`. -/
inductive AttemptResult where
  | ok
  | errResp
  | timedOut
deriving DecidableEq, Repr

/-- Actions of the webhook delivery loop, in program order: the backoff
sleep before a retry and the HTTPS attempt with its zero-based index. -/
inductive WAct where
  | sleep (ms : Nat)
  | attempt (idx : Nat)
deriving DecidableEq, Repr

/-- Embedding of the `for attempt in 0..=max_retries` delivery loop of the
`ForwardEmail` handler (src/webhook/mod.rs, lines 184-215): before attempt
`i > 0` sleep `100 * 2 ^ (i - 1)` milliseconds, run the attempt, stop on
success.  `fuel` is the number of attempts still allowed after this one. -/
def wloop (o : Nat → AttemptResult) : Nat → Nat → List WAct
  | i, 0 =>
    (if i = 0 then [] else [WAct.sleep (100 * 2 ^ (i - 1))]) ++ [WAct.attempt i]
  | i, fuel + 1 =>
    (if i = 0 then [] else [WAct.sleep (100 * 2 ^ (i - 1))]) ++ [WAct.attempt i] ++
      (if o i = AttemptResult.ok then [] else wloop o (i + 1) fuel)

/-- The full action trace of one admitted delivery: the loop starting at
attempt 0 with `maxRetries` further attempts allowed. -/
def webhookTrace (o : Nat → AttemptResult) (maxRetries : Nat) : List WAct :=
  wloop o 0 maxRetries

/-- Number of HTTPS attempts in a trace. -/
def attemptCount (l : List WAct) : Nat :=
  (l.filter (fun a => match a with | WAct.attempt _ => true | _ => false)).length

/-- The backoff sleeps of a trace, in order. -/
def sleepsOf (l : List WAct) : List Nat :=
  l.filterMap (fun a => match a with | WAct.sleep ms => some ms | _ => none)

/-- Mutable state of the webhook dispatcher actor, from `WebhookState` in
src/webhook/mod.rs. -/
structure WebhookModel where
  consecutiveFailures : Nat
  circuitOpen : Bool
  circuitOpenedAtMs : Nat
  totalForwarded : Nat
  totalFailed : Nat
  webhookTimeoutSecs : Nat
  maxRetries : Nat
  circuitThreshold : Nat
  circuitResetSecs : Nat
deriving DecidableEq, Repr

/-- Embedding of the circuit-breaker prologue of the `ForwardEmail` handler
(src/webhook/mod.rs, lines 169-180).  Returns the updated state and whether
the submission is admitted to the delivery loop (`true`) or dropped
(`false`). -/
def circuitCheck (m : WebhookModel) (nowMs : Nat) : WebhookModel × Bool :=
  if m.circuitOpen then
    let elapsed := nowMs - m.circuitOpenedAtMs
    if elapsed > m.circuitResetSecs * 1000 then
      ({ m with circuitOpen := false, consecutiveFailures := 0 }, true)
    else
      ({ m with totalFailed := m.totalFailed + 1 }, false)
  else
    (m, true)

/-- One submission to the dispatcher: the circuit-breaker check followed,
when admitted, by the delivery loop.  The returned trace is empty exactly
when the message was dropped without any HTTPS attempt. -/
def dispatchEvents (m : WebhookModel) (nowMs : Nat) (o : Nat → AttemptResult) :
    WebhookModel × List WAct :=
  let c := circuitCheck m nowMs
  if c.2 then (c.1, webhookTrace o m.maxRetries) else (c.1, [])

/-- JSON values as produced by serde_json for `EmailPayload`. -/
inductive JsonVal where
  | str (s : String)
  | obj (fields : List (String × JsonVal))
  | nullVal
deriving Repr

/-- Embedding of the serde serialisation of `EmailPayload`
(src/webhook/mod.rs, lines 37-49): fields in declaration order, with
`sender_name`, `html_body` and `headers` skipped entirely when `None`
(`skip_serializing_if = "Option::is_none"`). -/
def emailPayloadFields (p : EmailPayload) : List (String × JsonVal) :=
  [("sender", JsonVal.str p.sender)] ++
  (match p.senderName with
   | some n => [("sender_name", JsonVal.str n)]
   | none => []) ++
  [("recipient", JsonVal.str p.recipient),
   ("subject", JsonVal.str p.subject),
   ("body", JsonVal.str p.body)] ++
  (match p.htmlBody with
   | some h => [("html_body", JsonVal.str h)]
   | none => []) ++
  (match p.headers with
   | some hs => [("headers", JsonVal.obj (hs.map (fun kv => (kv.1, JsonVal.str kv.2))))]
   | none => [])

/-- The keys present in a serialised JSON object. -/
def jsonKeys (fields : List (String × JsonVal)) : List String :=
  fields.map Prod.fst

/-- Embedding of mailparse's `get_first_value` as used by
`EmailParser::parse` (src/smtp/email_parser.rs): the value of the first
header whose name matches case-insensitively. -/
def getFirstValue (hs : List (String × String)) (name : String) : Option String :=
  (hs.find? (fun h => strToLower h.1 == strToLower name)).map Prod.snd

/-- Embedding of the Subject extraction of `EmailParser::parse`
(src/smtp/email_parser.rs, lines 60-64): the first `Subject` header value,
defaulting to the empty string when absent. -/
def subjectOf (hs : List (String × String)) : String :=
  (getFirstValue hs "Subject").getD ""

/-- The sender-side dot-stuffed wire form of a message given as a list of
CRLF-separated lines.  Modelled from the spec: RFC 5321 section 4.5.2
dot-stuffing, prefixing each line that begins with a dot by one extra dot
and terminating the DATA phase with a line holding a single dot.  This is
the spec side of the round-trip relation of claim C3; the code side is
`collectBody` below. -/
def dotStuffWire (ls : List String) : List String :=
  ls.map (fun l => if strStartsWith l "." then "." ++ l else l) ++ ["."]

/-- Fixed instantiations of the abstract external functions used by the
body-collection harness: an address parser that never matches (no MAIL
FROM or RCPT TO occurs during DATA) and a MIME parser result that is
irrelevant to the collected bytes. -/
def extNone : String → Option String := fun _ => none

/-- A parse function whose result is never inspected by `collectBody`
(the collected buffer is read off the `parseData` event). -/
def parseStop : String → Except String ParseOut := fun _ => Except.error "stop"

/-- The body captured by the session loop from a list of wire lines
received while in the `Data` state: iterate `sessionStep` from a
collecting session; when the end-of-data marker is processed the buffer
that the handler passes to the parser is read off the `parseData` event;
if the wire ends without a marker, the buffer accumulated so far. -/
def collectBody (s : Session) : List String → String
  | [] => s.emailData
  | l :: ls =>
    match sessionStep extNone parseStop [] s l with
    | StepOut.next s' evs =>
      match evs.filterMap (fun e => match e with | Ev.parseData d => some d | _ => none) with
      | d :: _ => d
      | [] => collectBody s' ls
    | StepOut.exitClean _ => s.emailData
    | StepOut.startTlsOut _ => s.emailData

/-- One CRLF pair per loop iteration: the amount `handle_connection` adds
to `email_data` for every empty line consumed while collecting DATA. -/
def crlfRepeat : Nat → String
  | 0 => ""
  | n + 1 => "\r\n" ++ crlfRepeat n

/-- Iterates the `handle_connection` loop body on the empty-line sentinel
that `read_line` returns forever once the peer has closed the connection
(EOF).  `none` means the loop exited; `some s` is the session state after
`n` iterations with the loop still running. -/
def iterEof (ext : String → Option String) (parse : String → Except String ParseOut)
    (targets : List String) : Nat → Session → Option Session
  | 0, s => some s
  | n + 1, s =>
    match sessionStep ext parse targets s "" with
    | StepOut.next s' _ => iterEof ext parse targets n s'
    | _ => none

/-- The CRLF-joined form of a list of body lines, as accumulated by the
session handlers (each line is appended followed by one CRLF). -/
def joinLines : List String → String
  | [] => ""
  | l :: ls => l ++ "\r\n" ++ joinLines ls

/-- Number of attempts the delivery loop performs, starting at attempt `i`
with `fuel` further attempts allowed: 1 when the bound is reached or the
attempt succeeds, otherwise one plus the attempts of the rest of the loop. -/
def madeCount (o : Nat → AttemptResult) : Nat → Nat → Nat
  | _, 0 => 1
  | i, fuel + 1 => if o i = AttemptResult.ok then 1 else 1 + madeCount o (i + 1) fuel

/-- A concrete instance of the external address extraction, agreeing with
the behaviour of `extract_email` that the repository's own unit tests pin
down (src/smtp/smtp_protocol.rs test module). -/
def extTest (line : String) : Option String :=
  if line = "MAIL FROM:<sender@example.com>" then some "sender@example.com"
  else if line = "RCPT TO:<evil@example.net>" then some "evil@example.net"
  else if line = "RCPT TO:<target@example.com>" then some "target@example.com"
  else if line = "RCPT TO:<Target@Example.Com>" then some "Target@Example.Com"
  else none

/-- A concrete parse function that succeeds with a fixed simple message. -/
def parseOkTest : String → Except String ParseOut :=
  fun _ => Except.ok { subject := "Hi", fromName := none, textBody := "Body\r\n", htmlBody := none }

/-- A concrete parse function that always fails, modelling a mailparse
error on malformed DATA. -/
def parseFailTest : String → Except String ParseOut :=
  fun _ => Except.error "Mail parsing failed: bad input"

/-- The session state at the start of `handle_connection`, before any
command has been processed. -/
def initSession : Session :=
  { protoState := SmtpState.initial, sender := "", acceptedRecipient := "",
    emailData := "", collectingData := false }

/-- A session that has accepted a sender and an allow-listed recipient and
has collected one simple message, ready for the end-of-data marker. -/
def sReady : Session :=
  { protoState := SmtpState.data, sender := "sender@example.com",
    acceptedRecipient := "target@example.com", emailData := "Subject: Hi\r\n\r\nBody\r\n",
    collectingData := true }

/-- A collecting DATA-state session with an empty buffer, used as the
starting point of the body-capture harness. -/
def sCollect : Session :=
  { protoState := SmtpState.data, sender := "s@a.com", acceptedRecipient := "r@b.com",
    emailData := "", collectingData := true }

/-- A session in the `MailFrom` state with a stored sender, awaiting
RCPT TO. -/
def sMailFrom : Session :=
  { protoState := SmtpState.mailFrom, sender := "sender@example.com",
    acceptedRecipient := "", emailData := "", collectingData := false }

/-- The session state after a completed (or aborted) mail transaction:
protocol state reset to `Greeted`, envelope cleared. -/
def sAfterEnd : Session :=
  { protoState := SmtpState.greeted, sender := "", acceptedRecipient := "",
    emailData := "", collectingData := false }

/-- The payload produced from `sReady` under `parseOkTest`. -/
def payloadHi : EmailPayload :=
  { sender := "sender@example.com", senderName := none,
    recipient := "target@example.com", subject := "Hi",
    body := "Body\r\n", htmlBody := none, headers := none }

/-- The event sequence of the `DataEnd` iteration on `sReady`. -/
def c2Events : List Ev :=
  [Ev.write "250 OK: Message accepted for delivery",
   Ev.parseData "Subject: Hi\r\n\r\nBody\r\n",
   Ev.deliver payloadHi]

/-- A dispatcher state whose circuit opened at millisecond 1000 with a
60-second reset window. -/
def mOpen : WebhookModel :=
  { consecutiveFailures := 5, circuitOpen := true, circuitOpenedAtMs := 1000,
    totalForwarded := 0, totalFailed := 2, webhookTimeoutSecs := 30,
    maxRetries := 3, circuitThreshold := 5, circuitResetSecs := 60 }

/-- Attempt outcomes where every HTTPS attempt fails with a non-2xx
response. -/
def oAllFail : Nat → AttemptResult := fun _ => AttemptResult.errResp

/-- Attempt outcomes of spec scenario S2: 500, 500, then 200. -/
def oS2 : Nat → AttemptResult :=
  fun n => if n < 2 then AttemptResult.errResp else AttemptResult.ok

/-- A payload with every optional field unset. -/
def pMin : EmailPayload :=
  { sender := "s@a.com", senderName := none, recipient := "r@b.com",
    subject := "", body := "", htmlBody := none, headers := none }

/-! ### Helper lemmas -/

lemma rcpt_line_ne_empty (line : String)
    (h : strStartsWith (strToUpper line) "RCPT TO:" = true) : line ≠ "" := by
  intro he
  rw [he] at h
  exact absurd h (by decide)

lemma startsWithRcptNotData (u : String)
    (h : strStartsWith u "RCPT TO:" = true) : strStartsWith u "DATA" = false := by
  unfold strStartsWith at h ⊢
  have hR : ("RCPT TO:").data = ['R','C','P','T',' ','T','O',':'] := rfl
  have hD : ("DATA").data = ['D','A','T','A'] := rfl
  rw [hR] at h
  rw [hD]
  generalize u.data = l at h ⊢
  match l with
  | [] => simp [List.isPrefixOf] at h
  | c :: cs =>
    simp only [List.isPrefixOf, Bool.and_eq_true, beq_iff_eq] at h ⊢
    have hc : c = 'R' := h.1.symm
    simp [hc]

lemma processCommand_rcpt_mailFrom (ext : String → Option String) (line email : String)
    (hcmd : strStartsWith (strToUpper line) "RCPT TO:" = true)
    (hext : ext line = some email) :
    processCommand ext SmtpState.mailFrom line =
      (SmtpState.rcptTo, [], SmtpCommandResult.rcptTo email) := by
  simp [processCommand, hcmd, hext]

lemma processCommand_rcpt_rcptTo (ext : String → Option String) (line email : String)
    (hcmd : strStartsWith (strToUpper line) "RCPT TO:" = true)
    (hext : ext line = some email) :
    processCommand ext SmtpState.rcptTo line =
      (SmtpState.rcptTo, [], SmtpCommandResult.rcptTo email) := by
  have hnd := startsWithRcptNotData _ hcmd
  simp [processCommand, hcmd, hext, hnd]

lemma sessionStep_of_rcptResult (ext : String → Option String)
    (parse : String → Except String ParseOut) (targets : List String)
    (s : Session) (line email : String) (hne : line ≠ "")
    (hpc : processCommand ext s.protoState line =
      (SmtpState.rcptTo, [], SmtpCommandResult.rcptTo email)) :
    sessionStep ext parse targets s line =
      if targets.any (fun target => strToLower target == strToLower email) then
        StepOut.next { s with protoState := SmtpState.rcptTo, acceptedRecipient := email }
          [Ev.write "250 OK"]
      else
        StepOut.next { s with protoState := SmtpState.rcptTo, acceptedRecipient := "" }
          [Ev.write "550 No such user here"] := by
  simp only [sessionStep, hpc, hne]
  simp

lemma sessionStep_dataEnd_ok (ext : String → Option String)
    (parse : String → Except String ParseOut) (targets : List String)
    (s : Session) (pr : ParseOut)
    (hst : s.protoState = SmtpState.data)
    (hs : s.sender ≠ "") (hr : s.acceptedRecipient ≠ "")
    (hp : parse s.emailData = Except.ok pr) :
    sessionStep ext parse targets s "." =
      StepOut.next
        { s with
            protoState := SmtpState.greeted, collectingData := false,
            sender := "", acceptedRecipient := "", emailData := "" }
        [Ev.write "250 OK: Message accepted for delivery",
         Ev.parseData s.emailData,
         Ev.deliver
           { sender := s.sender, senderName := pr.fromName,
             recipient := s.acceptedRecipient, subject := pr.subject,
             body := pr.textBody, htmlBody := pr.htmlBody, headers := none }] := by
  simp only [sessionStep, processCommand, hst]
  simp [hs, hr, hp]

lemma sessionStep_eof_data (ext : String → Option String)
    (parse : String → Except String ParseOut) (targets : List String) (s : Session)
    (hst : s.protoState = SmtpState.data) (hc : s.collectingData = true) :
    sessionStep ext parse targets s "" =
      StepOut.next { s with emailData := s.emailData ++ "\r\n" } [] := by
  simp only [sessionStep, processCommand, hst, hc]
  simp [← hst, String.append_empty]

lemma collectBody_eq (wire : List String) : ∀ s : Session,
    s.protoState = SmtpState.data → s.collectingData = true →
    s.sender ≠ "" → s.acceptedRecipient ≠ "" →
    collectBody s wire =
      s.emailData ++ joinLines (wire.takeWhile (fun l => l ≠ ".")) := by
  induction wire with
  | nil =>
    intro s hst hc hs hr
    simp [collectBody, joinLines, String.append_empty]
  | cons l ls ih =>
    intro s hst hc hs hr
    by_cases hl : l = "."
    · subst hl
      have hstep : sessionStep extNone parseStop [] s "." =
          StepOut.next
            { s with
                protoState := SmtpState.greeted, collectingData := false,
                sender := "", acceptedRecipient := "", emailData := "" }
            [Ev.write "250 OK: Message accepted for delivery", Ev.parseData s.emailData,
             Ev.logErr "stop"] := by
        simp only [sessionStep, processCommand, hst]
        simp [hs, hr, parseStop]
      rw [collectBody, hstep]
      simp [joinLines, String.append_empty]
    · have hstep : sessionStep extNone parseStop [] s l =
          StepOut.next { s with emailData := s.emailData ++ l ++ "\r\n" } [] := by
        simp only [sessionStep, processCommand, hst]
        simp [hl, hc, ← hst]
      rw [collectBody, hstep]
      dsimp only
      rw [ih { s with emailData := s.emailData ++ l ++ "\r\n" }
        (by simp [hst]) (by simp [hc]) (by simpa using hs) (by simpa using hr)]
      simp [List.takeWhile_cons, hl, joinLines, String.append_assoc]

lemma dotStuffWire_no_dot (ls : List String)
    (hnd : ∀ l ∈ ls, strStartsWith l "." = false) :
    dotStuffWire ls = ls ++ ["."] := by
  unfold dotStuffWire
  have hmap : ls.map (fun l => if strStartsWith l "." then "." ++ l else l) = ls := by
    have hid : ls.map (fun l => if strStartsWith l "." then "." ++ l else l) = ls.map id :=
      List.map_congr_left (fun l hl => by simp [hnd l hl])
    simpa using hid
  rw [hmap]

lemma takeWhile_no_dot (ls : List String)
    (hnd : ∀ l ∈ ls, strStartsWith l "." = false) :
    (ls ++ ["."]).takeWhile (fun l => l ≠ ".") = ls := by
  induction ls with
  | nil => simp
  | cons x xs ih =>
    have hx : x ≠ "." := by
      intro he
      subst he
      have hone := hnd "." (by simp)
      exact absurd hone (by decide)
    have ih2 := ih (fun l hl => hnd l (by simp [hl]))
    simp [List.takeWhile_cons, hx] at ih2 ⊢
    exact ih2

lemma madeCount_zero (o : Nat → AttemptResult) (i : Nat) : madeCount o i 0 = 1 := rfl

lemma madeCount_succ_ok (o : Nat → AttemptResult) (i fuel : Nat)
    (ho : o i = AttemptResult.ok) : madeCount o i (fuel + 1) = 1 := by
  simp [madeCount, ho]

lemma madeCount_succ_fail (o : Nat → AttemptResult) (i fuel : Nat)
    (ho : ¬ o i = AttemptResult.ok) :
    madeCount o i (fuel + 1) = 1 + madeCount o (i + 1) fuel := by
  simp [madeCount, ho]

lemma attemptCount_append (a b : List WAct) :
    attemptCount (a ++ b) = attemptCount a + attemptCount b := by
  simp [attemptCount, List.filter_append]

lemma sleepsOf_append (a b : List WAct) :
    sleepsOf (a ++ b) = sleepsOf a ++ sleepsOf b := by
  simp [sleepsOf]

lemma wloop_zero (o : Nat → AttemptResult) (i : Nat) :
    wloop o i 0 = (if i = 0 then [] else [WAct.sleep (100 * 2 ^ (i - 1))]) ++
      [WAct.attempt i] := rfl

lemma wloop_succ_ok (o : Nat → AttemptResult) (i fuel : Nat)
    (ho : o i = AttemptResult.ok) :
    wloop o i (fuel + 1) = (if i = 0 then [] else [WAct.sleep (100 * 2 ^ (i - 1))]) ++
      [WAct.attempt i] := by
  simp [wloop, ho]

lemma wloop_succ_fail (o : Nat → AttemptResult) (i fuel : Nat)
    (ho : ¬ o i = AttemptResult.ok) :
    wloop o i (fuel + 1) = (if i = 0 then [] else [WAct.sleep (100 * 2 ^ (i - 1))]) ++
      [WAct.attempt i] ++ wloop o (i + 1) fuel := by
  simp [wloop, ho]

lemma attemptCount_pre (i : Nat) :
    attemptCount (if i = 0 then [] else [WAct.sleep (100 * 2 ^ (i - 1))]) = 0 := by
  by_cases hi : i = 0 <;> simp [attemptCount, hi]

lemma sleepsOf_pre (i : Nat) :
    sleepsOf (if i = 0 then [] else [WAct.sleep (100 * 2 ^ (i - 1))]) =
      if i = 0 then [] else [100 * 2 ^ (i - 1)] := by
  by_cases hi : i = 0 <;> simp [sleepsOf, hi]

lemma mem_pre (i k : Nat) :
    WAct.attempt k ∉ (if i = 0 then [] else [WAct.sleep (100 * 2 ^ (i - 1))]) := by
  by_cases hi : i = 0 <;> simp [hi]

lemma attemptCount_wloop (o : Nat → AttemptResult) :
    ∀ fuel i, attemptCount (wloop o i fuel) = madeCount o i fuel := by
  intro fuel
  induction fuel with
  | zero =>
    intro i
    rw [wloop_zero, attemptCount_append, attemptCount_pre, madeCount_zero]
    rfl
  | succ fuel ih =>
    intro i
    by_cases ho : o i = AttemptResult.ok
    · rw [wloop_succ_ok o i fuel ho, attemptCount_append, attemptCount_pre,
        madeCount_succ_ok o i fuel ho]
      rfl
    · rw [wloop_succ_fail o i fuel ho, attemptCount_append, attemptCount_append,
        attemptCount_pre, madeCount_succ_fail o i fuel ho, ih (i + 1)]
      rfl

lemma madeCount_le (o : Nat → AttemptResult) :
    ∀ fuel i, madeCount o i fuel ≤ fuel + 1 := by
  intro fuel
  induction fuel with
  | zero => intro i; rw [madeCount_zero]
  | succ fuel ih =>
    intro i
    by_cases ho : o i = AttemptResult.ok
    · rw [madeCount_succ_ok o i fuel ho]; omega
    · rw [madeCount_succ_fail o i fuel ho]
      have := ih (i + 1)
      omega

lemma madeCount_pos (o : Nat → AttemptResult) (fuel i : Nat) :
    1 ≤ madeCount o i fuel := by
  cases fuel with
  | zero => rw [madeCount_zero]
  | succ fuel =>
    by_cases ho : o i = AttemptResult.ok
    · rw [madeCount_succ_ok o i fuel ho]
    · rw [madeCount_succ_fail o i fuel ho]; omega

lemma lt_madeCount_iff (o : Nat → AttemptResult) :
    ∀ fuel i k, k < madeCount o i fuel ↔
      (k ≤ fuel ∧ ∀ d, d < k → o (i + d) ≠ AttemptResult.ok) := by
  intro fuel
  induction fuel with
  | zero =>
    intro i k
    rw [madeCount_zero]
    constructor
    · intro hk
      have hk0 : k = 0 := by omega
      subst hk0
      exact ⟨Nat.le_refl 0, fun d hd => absurd hd (Nat.not_lt_zero d)⟩
    · intro h
      have := h.1
      omega
  | succ fuel ih =>
    intro i k
    by_cases ho : o i = AttemptResult.ok
    · rw [madeCount_succ_ok o i fuel ho]
      constructor
      · intro hk
        have hk0 : k = 0 := by omega
        subst hk0
        exact ⟨Nat.zero_le _, fun d hd => absurd hd (Nat.not_lt_zero d)⟩
      · intro h
        rcases Nat.eq_zero_or_pos k with h0 | h0
        · omega
        · have hx := h.2 0 h0
          rw [Nat.add_zero] at hx
          exact absurd ho hx
    · rw [madeCount_succ_fail o i fuel ho]
      cases k with
      | zero =>
        constructor
        · intro _
          exact ⟨Nat.zero_le _, fun d hd => absurd hd (Nat.not_lt_zero d)⟩
        · intro _
          have := madeCount_pos o fuel (i + 1)
          omega
      | succ k =>
        have hiter := ih (i + 1) k
        constructor
        · intro hk
          have hk2 : k < madeCount o (i + 1) fuel := by omega
          have hres := hiter.mp hk2
          refine ⟨by omega, fun d hd => ?_⟩
          cases d with
          | zero => rw [Nat.add_zero]; exact ho
          | succ d =>
            have he : i + (d + 1) = i + 1 + d := by omega
            rw [he]
            exact hres.2 d (by omega)
        · intro h
          have hk2 : k < madeCount o (i + 1) fuel := by
            apply hiter.mpr
            refine ⟨by omega, fun d hd => ?_⟩
            have he : i + 1 + d = i + (d + 1) := by omega
            rw [he]
            exact h.2 (d + 1) (by omega)
          omega

lemma attempt_mem_wloop (o : Nat → AttemptResult) :
    ∀ fuel i k, WAct.attempt k ∈ wloop o i fuel ↔
      (i ≤ k ∧ k - i < madeCount o i fuel) := by
  intro fuel
  induction fuel with
  | zero =>
    intro i k
    rw [wloop_zero, madeCount_zero]
    simp [mem_pre i k, List.mem_append]
    omega
  | succ fuel ih =>
    intro i k
    by_cases ho : o i = AttemptResult.ok
    · rw [wloop_succ_ok o i fuel ho, madeCount_succ_ok o i fuel ho]
      simp [mem_pre i k, List.mem_append]
      omega
    · rw [wloop_succ_fail o i fuel ho, madeCount_succ_fail o i fuel ho]
      simp only [List.append_assoc, List.mem_append]
      rw [ih (i + 1)]
      have hpre := mem_pre i k
      have hpos := madeCount_pos o fuel (i + 1)
      simp only [List.mem_singleton]
      constructor
      · intro h
        rcases h with h | h | h
        · exact absurd h hpre
        · have : k = i := by injection h
          omega
        · omega
      · intro h
        by_cases hk : k = i
        · exact Or.inr (Or.inl (by rw [hk]))
        · exact Or.inr (Or.inr (by omega))

lemma sleepsOf_wloop (o : Nat → AttemptResult) :
    ∀ fuel i, sleepsOf (wloop o i fuel) =
      (List.range' i (madeCount o i fuel)).filterMap
        (fun k => if k = 0 then none else some (100 * 2 ^ (k - 1))) := by
  intro fuel
  induction fuel with
  | zero =>
    intro i
    rw [wloop_zero, madeCount_zero, sleepsOf_append, sleepsOf_pre, List.range'_one]
    by_cases hi : i = 0 <;> simp [sleepsOf, hi]
  | succ fuel ih =>
    intro i
    by_cases ho : o i = AttemptResult.ok
    · rw [wloop_succ_ok o i fuel ho, madeCount_succ_ok o i fuel ho, sleepsOf_append,
        sleepsOf_pre, List.range'_one]
      by_cases hi : i = 0 <;> simp [sleepsOf, hi]
    · rw [wloop_succ_fail o i fuel ho, madeCount_succ_fail o i fuel ho]
      rw [List.append_assoc, sleepsOf_append, sleepsOf_pre, sleepsOf_append, ih (i + 1)]
      have h1 : 1 + madeCount o (i + 1) fuel = madeCount o (i + 1) fuel + 1 := by omega
      rw [h1, List.range'_succ]
      by_cases hi : i = 0 <;> simp [sleepsOf, hi]

lemma filterMap_backoff_range (M : Nat) : ∀ s : Nat, 1 ≤ s →
    (List.range' s M).filterMap
        (fun k => if k = 0 then none else some (100 * 2 ^ (k - 1))) =
      (List.range' s M).map (fun k => 100 * 2 ^ (k - 1)) := by
  induction M with
  | zero => intro s _; simp
  | succ M ih =>
    intro s hs
    rw [List.range'_succ]
    have hs0 : ¬ (s = 0) := by omega
    simp [hs0, ih (s + 1) (by omega)]

lemma sleepsOf_trace (o : Nat → AttemptResult) (mr : Nat) :
    sleepsOf (webhookTrace o mr) =
      (List.range (attemptCount (webhookTrace o mr) - 1)).map (fun j => 100 * 2 ^ j) := by
  rw [webhookTrace, sleepsOf_wloop, attemptCount_wloop]
  obtain ⟨M, hM⟩ : ∃ M, madeCount o 0 mr = M + 1 :=
    ⟨madeCount o 0 mr - 1, by have := madeCount_pos o mr 0; omega⟩
  rw [hM]
  rw [List.range'_succ]
  simp only [List.filterMap_cons, if_pos rfl]
  rw [filterMap_backoff_range M 1 (by omega)]
  have he : M + 1 - 1 = M := by omega
  rw [he]
  rw [List.range'_eq_map_range, List.map_map]
  apply List.map_congr_left
  intro a _
  simp [Function.comp]

lemma attempt_zero_mem (o : Nat → AttemptResult) (mr : Nat) :
    WAct.attempt 0 ∈ webhookTrace o mr := by
  cases mr <;> simp [webhookTrace, wloop]

/-! ### Claim theorems -/

/-- Claim C1 (code bug exhibited).  The claim states that a DATA command
issued without an accepted recipient is answered only with 503 and the
session never enters the `Data` state.  The code behaves differently: after
MAIL FROM and a rejected RCPT TO (550), `process_command` answers DATA with
354 and moves the protocol state to `Data` before the handler notices the
empty envelope and additionally writes 503; the subsequent end-of-data
marker is even acknowledged with `250 OK: Message accepted for delivery`
although nothing was accepted.  This theorem evaluates the embedded
handler on that exact dialogue. -/
theorem c1_data_entered_without_recipient :
    (runLines extTest parseFailTest ["target@example.com"]
      ["HELO example.com", "MAIL FROM:<sender@example.com>", "RCPT TO:<evil@example.net>",
       "DATA"] initSession).1 =
      some { protoState := SmtpState.data, sender := "sender@example.com",
             acceptedRecipient := "", emailData := "", collectingData := false } ∧
    runLines extTest parseFailTest ["target@example.com"]
      ["HELO example.com", "MAIL FROM:<sender@example.com>", "RCPT TO:<evil@example.net>",
       "DATA", "hello", "."] initSession =
    (some sAfterEnd,
     [Ev.write "250 MailLaser", Ev.write "250 OK", Ev.write "550 No such user here",
      Ev.write "354 Start mail input; end with <CRLF>.<CRLF>",
      Ev.write "503 Bad sequence of commands (MAIL FROM and RCPT TO required first)",
      Ev.logWarn "Received DataLine result when not in Data state.",
      Ev.write "250 OK: Message accepted for delivery",
      Ev.logWarn "DataEnd received but sender or recipient was missing."]) := by
  decide

/-- Claim C2 counterexample.  The claim asserts the order parse, then
dispatch handoff, then the 250 reply.  On a concrete `DataEnd` iteration
the embedded handler emits the 250 write as the very first event, before
the parse and before the delivery call. -/
theorem c2_claimed_order_false :
    sessionStep extTest parseOkTest ["target@example.com"] sReady "." =
      StepOut.next sAfterEnd c2Events ∧
    c2Events.take 1 = [Ev.write "250 OK: Message accepted for delivery"] ∧
    Ev.deliver payloadHi ∈ c2Events.drop 1 := by
  decide

/-- Claim C2 (amended).  On `DataEnd` with a non-empty envelope the session
first writes `250 OK: Message accepted for delivery` (inside
`process_command`, while handling the terminating dot line), then invokes
the parser on the collected data, and then performs the webhook delivery
call directly; hence the 250 precedes parsing, submission and delivery
completion, and the envelope is reset with the state returning to
`Greeted`. -/
theorem c2_ack_precedes_dispatch (ext : String → Option String)
    (parse : String → Except String ParseOut) (targets : List String)
    (s : Session) (pr : ParseOut)
    (hst : s.protoState = SmtpState.data)
    (hs : s.sender ≠ "") (hr : s.acceptedRecipient ≠ "")
    (hp : parse s.emailData = Except.ok pr) :
    sessionStep ext parse targets s "." =
      StepOut.next
        { s with
            protoState := SmtpState.greeted, collectingData := false,
            sender := "", acceptedRecipient := "", emailData := "" }
        [Ev.write "250 OK: Message accepted for delivery",
         Ev.parseData s.emailData,
         Ev.deliver
           { sender := s.sender, senderName := pr.fromName,
             recipient := s.acceptedRecipient, subject := pr.subject,
             body := pr.textBody, htmlBody := pr.htmlBody, headers := none }] :=
  sessionStep_dataEnd_ok ext parse targets s pr hst hs hr hp

/-- Witness for C2: the amended ordering at a concrete session. -/
theorem c2_ack_precedes_dispatch_witness :
    sessionStep extTest parseOkTest ["target@example.com"] sReady "." =
      StepOut.next
        { sReady with
            protoState := SmtpState.greeted, collectingData := false,
            sender := "", acceptedRecipient := "", emailData := "" }
        [Ev.write "250 OK: Message accepted for delivery",
         Ev.parseData sReady.emailData,
         Ev.deliver
           { sender := sReady.sender, senderName := none,
             recipient := sReady.acceptedRecipient, subject := "Hi",
             body := "Body\r\n", htmlBody := none, headers := none }] :=
  c2_ack_precedes_dispatch extTest parseOkTest ["target@example.com"] sReady
    { subject := "Hi", fromName := none, textBody := "Body\r\n", htmlBody := none }
    rfl (by decide) (by decide) rfl

/-- Claim C3 counterexample.  The claim asserts that a DATA line beginning
with a dot has its leading dot removed and that dot-stuffing round-trips.
The code appends such lines verbatim: the wire form of the single-line body
`.x` is `..x` followed by the terminator, and the captured body keeps both
dots, so the round-trip fails. -/
theorem c3_unstuffing_absent :
    dotStuffWire [".x"] = ["..x", "."] ∧
    collectBody sCollect (dotStuffWire [".x"]) = "..x\r\n" ∧
    collectBody sCollect (dotStuffWire [".x"]) ≠ ".x\r\n" := by
  decide

/-- Claim C3 (amended).  A line consisting of exactly `.` terminates the
DATA phase and never appears in the captured body (the capture is the
CRLF-join of the lines before the first `.`); every other line, including
lines that begin with `.`, is appended verbatim with no leading-dot
removal.  Consequently the stuff-then-capture round-trip reproduces the
body exactly (up to the CRLF after each line) precisely when no line of the
body begins with a dot. -/
theorem c3_capture_verbatim (wire ls : List String)
    (hnd : ∀ l ∈ ls, strStartsWith l "." = false) :
    collectBody sCollect wire = joinLines (wire.takeWhile (fun l => l ≠ ".")) ∧
    collectBody sCollect (dotStuffWire ls) = joinLines ls := by
  have h1 := collectBody_eq wire sCollect rfl rfl (by decide) (by decide)
  have h2 := collectBody_eq (ls ++ ["."]) sCollect rfl rfl (by decide) (by decide)
  rw [takeWhile_no_dot ls hnd] at h2
  constructor
  · rw [h1]
    exact String.empty_append _
  · rw [dotStuffWire_no_dot ls hnd, h2]
    exact String.empty_append _

/-- Witness for C3: the amended round-trip on a concrete two-line body. -/
theorem c3_capture_verbatim_witness :
    collectBody sCollect (dotStuffWire ["hello", "world"]) =
      joinLines ["hello", "world"] :=
  (c3_capture_verbatim [] ["hello", "world"] (by decide)).2

/-- Claim C4.  While the circuit is open and the elapsed time since it
opened is below the reset window, a submission is dropped: no HTTPS attempt
occurs (the action trace is empty) and the only state change is
`total_failed` increasing by one.  The first submission strictly after the
reset window is admitted: the delivery loop runs (attempt 0 occurs) and
`circuit_open` and `consecutive_failures` are cleared. -/
theorem c4_circuit_open_drops (m : WebhookModel) (nowMs : Nat) (o : Nat → AttemptResult)
    (hOpen : m.circuitOpen = true) :
    ((nowMs - m.circuitOpenedAtMs) < m.circuitResetSecs * 1000 →
      dispatchEvents m nowMs o = ({ m with totalFailed := m.totalFailed + 1 }, [])) ∧
    (m.circuitResetSecs * 1000 < (nowMs - m.circuitOpenedAtMs) →
      (dispatchEvents m nowMs o).1.circuitOpen = false ∧
      (dispatchEvents m nowMs o).1.consecutiveFailures = 0 ∧
      (dispatchEvents m nowMs o).2 = webhookTrace o m.maxRetries ∧
      WAct.attempt 0 ∈ (dispatchEvents m nowMs o).2) := by
  constructor
  · intro hlt
    have hnot : ¬ (nowMs - m.circuitOpenedAtMs > m.circuitResetSecs * 1000) := by omega
    simp [dispatchEvents, circuitCheck, hOpen, hnot]
  · intro hgt
    simp [dispatchEvents, circuitCheck, hOpen, hgt, attempt_zero_mem]

/-- Witness for C4: a circuit opened at millisecond 1000 with a 60 s reset
window drops a submission at millisecond 5000 and admits one at
millisecond 70000 with the breaker state cleared. -/
theorem c4_circuit_open_drops_witness :
    dispatchEvents mOpen 5000 oAllFail = ({ mOpen with totalFailed := 3 }, []) ∧
    (dispatchEvents mOpen 70000 oAllFail).1.circuitOpen = false ∧
    (dispatchEvents mOpen 70000 oAllFail).1.consecutiveFailures = 0 := by
  have h1 := (c4_circuit_open_drops mOpen 5000 oAllFail rfl).1 (by decide)
  have h2 := (c4_circuit_open_drops mOpen 70000 oAllFail rfl).2 (by decide)
  exact ⟨by rw [h1]; rfl, h2.1, h2.2.1⟩

/-- Claim C5.  For an admitted message the delivery loop makes at most
`1 + max_retries` attempts; it stops at the first successful attempt (if
the first success is attempt `j ≤ max_retries`, exactly `j + 1` attempts
occur); attempt `k + 1` occurs exactly when attempt `k` occurred, failed
(non-2xx response, transport error or timeout) and the retry budget is not
exhausted; and the backoff sleeps are, in order, `100 * 2 ^ j` milliseconds
for `j = 0, 1, ...` — that is, the delay before the k-th retry is
`100 * 2 ^ (k - 1)` ms, approximately 100 ms then 200 ms for the first two
retries. -/
theorem c5_retry_policy (o : Nat → AttemptResult) (mr : Nat) :
    attemptCount (webhookTrace o mr) ≤ mr + 1 ∧
    (∀ j : Nat, j ≤ mr → o j = AttemptResult.ok →
      (∀ i, i < j → o i ≠ AttemptResult.ok) →
      attemptCount (webhookTrace o mr) = j + 1) ∧
    (∀ k : Nat, WAct.attempt (k + 1) ∈ webhookTrace o mr ↔
      (WAct.attempt k ∈ webhookTrace o mr ∧ o k ≠ AttemptResult.ok ∧ k + 1 ≤ mr)) ∧
    sleepsOf (webhookTrace o mr) =
      (List.range (attemptCount (webhookTrace o mr) - 1)).map (fun j => 100 * 2 ^ j) := by
  refine ⟨?_, ?_, ?_, sleepsOf_trace o mr⟩
  · rw [webhookTrace, attemptCount_wloop]
    exact madeCount_le o mr 0
  · intro j hj hok hfail
    rw [webhookTrace, attemptCount_wloop]
    have h1 : j < madeCount o 0 mr := by
      apply (lt_madeCount_iff o mr 0 j).mpr
      refine ⟨hj, fun d hd => ?_⟩
      rw [Nat.zero_add]
      exact hfail d hd
    have h2 : ¬ (j + 1 < madeCount o 0 mr) := by
      intro hcon
      have hx := ((lt_madeCount_iff o mr 0 (j + 1)).mp hcon).2 j (by omega)
      rw [Nat.zero_add] at hx
      exact hx hok
    omega
  · intro k
    rw [webhookTrace, attempt_mem_wloop, attempt_mem_wloop]
    rw [lt_madeCount_iff, lt_madeCount_iff]
    simp only [Nat.zero_add, Nat.zero_le, true_and, Nat.sub_zero]
    constructor
    · intro h
      refine ⟨⟨by omega, fun d hd => h.2 d (by omega)⟩, h.2 k (by omega), by omega⟩
    · intro h
      refine ⟨by omega, fun d hd => ?_⟩
      rcases Nat.lt_succ_iff_lt_or_eq.mp hd with hd2 | hd2
      · exact h.1.2 d hd2
      · subst hd2
        exact h.2.1

/-- Witness for C5: spec scenario S2 (500, 500, then 200 with
`max_retries = 3`) makes exactly 3 attempts with delays 100 ms and
200 ms. -/
theorem c5_retry_policy_witness :
    attemptCount (webhookTrace oS2 3) = 3 ∧
    sleepsOf (webhookTrace oS2 3) = [100, 200] := by
  have h := c5_retry_policy oS2 3
  have hcount : attemptCount (webhookTrace oS2 3) = 3 := by
    apply h.2.1 2 (by omega) (by decide)
    intro i hi
    have h01 : i = 0 ∨ i = 1 := by omega
    rcases h01 with h0 | h0 <;> subst h0 <;> decide
  refine ⟨hcount, ?_⟩
  have hs := h.2.2.2
  rw [hcount] at hs
  rw [hs]
  decide

/-- Claim C6.  A syntactically valid RCPT TO (in `MailFrom` or `RcptTo`
state) is matched against the allow-list with both sides lowercased, so the
accept decision depends only on the lowercase form of the address; on a hit
the reply is exactly `250 OK` and the stored accepted recipient is the
address string exactly as the client sent it; on a miss the reply is
exactly `550 No such user here` and the accepted recipient is cleared; and
the payload built at `DataEnd` carries the stored string unchanged in its
`recipient` field. -/
theorem c6_rcpt_allowlist (ext : String → Option String)
    (parse : String → Except String ParseOut) (targets : List String)
    (s : Session) (line email : String)
    (hst : s.protoState = SmtpState.mailFrom ∨ s.protoState = SmtpState.rcptTo)
    (hcmd : strStartsWith (strToUpper line) "RCPT TO:" = true)
    (hext : ext line = some email) :
    (targets.any (fun target => strToLower target == strToLower email) = true →
      sessionStep ext parse targets s line =
        StepOut.next { s with protoState := SmtpState.rcptTo, acceptedRecipient := email }
          [Ev.write "250 OK"]) ∧
    (targets.any (fun target => strToLower target == strToLower email) = false →
      sessionStep ext parse targets s line =
        StepOut.next { s with protoState := SmtpState.rcptTo, acceptedRecipient := "" }
          [Ev.write "550 No such user here"]) ∧
    (∀ other : String, strToLower other = strToLower email →
      targets.any (fun target => strToLower target == strToLower other) =
        targets.any (fun target => strToLower target == strToLower email)) ∧
    (∀ (s₂ : Session) (pr : ParseOut), s₂.protoState = SmtpState.data →
      s₂.sender ≠ "" → s₂.acceptedRecipient = email → email ≠ "" →
      parse s₂.emailData = Except.ok pr →
      sessionStep ext parse targets s₂ "." =
        StepOut.next
          { s₂ with
              protoState := SmtpState.greeted, collectingData := false,
              sender := "", acceptedRecipient := "", emailData := "" }
          [Ev.write "250 OK: Message accepted for delivery",
           Ev.parseData s₂.emailData,
           Ev.deliver
             { sender := s₂.sender, senderName := pr.fromName,
               recipient := email, subject := pr.subject,
               body := pr.textBody, htmlBody := pr.htmlBody, headers := none }]) := by
  have hne : line ≠ "" := rcpt_line_ne_empty line hcmd
  have hpc : processCommand ext s.protoState line =
      (SmtpState.rcptTo, [], SmtpCommandResult.rcptTo email) := by
    rcases hst with h | h
    · rw [h]
      exact processCommand_rcpt_mailFrom ext line email hcmd hext
    · rw [h]
      exact processCommand_rcpt_rcptTo ext line email hcmd hext
  have hstep := sessionStep_of_rcptResult ext parse targets s line email hne hpc
  refine ⟨?_, ?_, ?_, ?_⟩
  · intro hhit
    rw [hstep, if_pos hhit]
  · intro hmiss
    rw [hstep, if_neg (by simp [hmiss])]
  · intro other hother
    rw [hother]
  · intro s₂ pr h2 hsend hacc hmail hp
    have hfin := sessionStep_dataEnd_ok ext parse targets s₂ pr h2 hsend
      (by rw [hacc]; exact hmail) hp
    rw [hfin, hacc]

/-- Witness for C6: `Target@Example.Com` matches the allow-list entry
`target@example.com` case-insensitively and is stored case-preserved. -/
theorem c6_rcpt_allowlist_witness :
    sessionStep extTest parseOkTest ["target@example.com"] sMailFrom
      "RCPT TO:<Target@Example.Com>" =
      StepOut.next
        { sMailFrom with
            protoState := SmtpState.rcptTo, acceptedRecipient := "Target@Example.Com" }
        [Ev.write "250 OK"] := by
  have h := c6_rcpt_allowlist extTest parseOkTest ["target@example.com"] sMailFrom
    "RCPT TO:<Target@Example.Com>" "Target@Example.Com" (Or.inl rfl) (by decide) (by decide)
  exact h.1 (by decide)

/-- Claim C7.  The JSON serialisation of any `EmailPayload` contains the
keys `sender`, `recipient`, `subject` and `body`; when `sender_name`,
`html_body` or `headers` is unset, no pair with that key occurs in the
serialised object at all (in particular no null); and the parser yields the
empty string for the subject when no Subject header is present. -/
theorem c7_payload_json (p : EmailPayload) (hs : List (String × String)) :
    "sender" ∈ jsonKeys (emailPayloadFields p) ∧
    "recipient" ∈ jsonKeys (emailPayloadFields p) ∧
    "subject" ∈ jsonKeys (emailPayloadFields p) ∧
    "body" ∈ jsonKeys (emailPayloadFields p) ∧
    (p.senderName = none → ∀ v : JsonVal, ("sender_name", v) ∉ emailPayloadFields p) ∧
    (p.htmlBody = none → ∀ v : JsonVal, ("html_body", v) ∉ emailPayloadFields p) ∧
    (p.headers = none → ∀ v : JsonVal, ("headers", v) ∉ emailPayloadFields p) ∧
    ((∀ h ∈ hs, strToLower h.1 ≠ "subject") → subjectOf hs = "") := by
  obtain ⟨sender, senderName, recipient, subject, body, htmlBody, headers⟩ := p
  refine ⟨?_, ?_, ?_, ?_, ?_, ?_, ?_, ?_⟩
  · cases senderName <;> cases htmlBody <;> cases headers <;>
      simp [emailPayloadFields, jsonKeys]
  · cases senderName <;> cases htmlBody <;> cases headers <;>
      simp [emailPayloadFields, jsonKeys]
  · cases senderName <;> cases htmlBody <;> cases headers <;>
      simp [emailPayloadFields, jsonKeys]
  · cases senderName <;> cases htmlBody <;> cases headers <;>
      simp [emailPayloadFields, jsonKeys]
  · intro hnone v
    subst hnone
    cases htmlBody <;> cases headers <;> simp [emailPayloadFields]
  · intro hnone v
    subst hnone
    cases senderName <;> cases headers <;> simp [emailPayloadFields]
  · intro hnone v
    subst hnone
    cases senderName <;> cases htmlBody <;> simp [emailPayloadFields]
  · intro hsub
    unfold subjectOf getFirstValue
    rw [List.find?_eq_none.mpr]
    · rfl
    · intro x hx
      have hS : strToLower "Subject" = "subject" := by decide
      simp [hS, beq_iff_eq]
      exact hsub x hx

/-- Witness for C7: a payload with all optional fields unset and a header
list without a Subject header. -/
theorem c7_payload_json_witness :
    "sender" ∈ jsonKeys (emailPayloadFields pMin) ∧
    ("sender_name", JsonVal.str "ghost") ∉ emailPayloadFields pMin ∧
    subjectOf [("From", "s@a.com")] = "" := by
  have h := c7_payload_json pMin [("From", "s@a.com")]
  exact ⟨h.1, h.2.2.2.2.1 rfl (JsonVal.str "ghost"), h.2.2.2.2.2.2.2 (by decide)⟩

/-- Claim C8 (code bug exhibited).  The claim states that for plain and TLS
sessions alike a parse failure after DATA is logged, no payload is
submitted, and the session is not terminated.  The plain handler indeed
logs and continues, but the TLS handler propagates the parser error with
the question-mark operator, terminating the secure session.  Neither path
submits a payload. -/
theorem c8_tls_parse_error_terminates :
    sessionStep extTest parseFailTest ["target@example.com"] sReady "." =
      StepOut.next sAfterEnd
        [Ev.write "250 OK: Message accepted for delivery",
         Ev.parseData "Subject: Hi\r\n\r\nBody\r\n",
         Ev.logErr "Mail parsing failed: bad input"] ∧
    secureSessionStep extTest parseFailTest ["target@example.com"] sReady "." =
      SecOut.errExit
        [Ev.write "250 OK: Message accepted for delivery",
         Ev.parseData "Subject: Hi\r\n\r\nBody\r\n"]
        "Mail parsing failed: bad input" := by
  decide

/-- Claim C9.  If the peer closes the connection while the session is in
the `Data` state with collection active, the loop never exits: `read_line`
yields the empty-line sentinel, the EOF check is skipped in `Data`, the
empty line becomes a `DataLine`, and each iteration appends one CRLF to the
in-memory buffer, which therefore grows without bound. -/
theorem c9_eof_data_loop (ext : String → Option String)
    (parse : String → Except String ParseOut) (targets : List String) :
    ∀ (n : Nat) (s : Session), s.protoState = SmtpState.data → s.collectingData = true →
      iterEof ext parse targets n s =
        some { s with emailData := s.emailData ++ crlfRepeat n } := by
  intro n
  induction n with
  | zero =>
    intro s hst hc
    simp [iterEof, crlfRepeat, String.append_empty]
  | succ n ih =>
    intro s hst hc
    rw [iterEof, sessionStep_eof_data ext parse targets s hst hc]
    dsimp only
    rw [ih { s with emailData := s.emailData ++ "\r\n" } (by simp [hst]) (by simp [hc])]
    simp [crlfRepeat, String.append_assoc]

/-- Witness for C9: three EOF iterations from a collecting DATA session
leave the loop running with three CRLF pairs appended. -/
theorem c9_eof_data_loop_witness :
    iterEof extTest parseOkTest [] 3 sCollect =
      some { sCollect with emailData := sCollect.emailData ++ crlfRepeat 3 } :=
  c9_eof_data_loop extTest parseOkTest [] 3 sCollect rfl rfl

/-- Claim C10.  In the `MailFrom` state a syntactically valid RCPT TO moves
the protocol state to `RcptTo` inside `process_command`, before and
regardless of the allow-list check performed by the caller; a 550 rejection
leaves the state at `RcptTo` with the accepted recipient cleared; and a
subsequent DATA command is answered by the state machine with 354 and a
transition to `Data` even though no recipient was accepted. -/
theorem c10_rcpt_state_transition (ext : String → Option String)
    (parse : String → Except String ParseOut) (targets : List String)
    (s : Session) (line email : String)
    (hst : s.protoState = SmtpState.mailFrom)
    (hcmd : strStartsWith (strToUpper line) "RCPT TO:" = true)
    (hext : ext line = some email)
    (hmiss : targets.any (fun target => strToLower target == strToLower email) = false) :
    processCommand ext SmtpState.mailFrom line =
      (SmtpState.rcptTo, [], SmtpCommandResult.rcptTo email) ∧
    sessionStep ext parse targets s line =
      StepOut.next { s with protoState := SmtpState.rcptTo, acceptedRecipient := "" }
        [Ev.write "550 No such user here"] ∧
    processCommand ext SmtpState.rcptTo "DATA" =
      (SmtpState.data, ["354 Start mail input; end with <CRLF>.<CRLF>"],
        SmtpCommandResult.dataStart) := by
  have hne : line ≠ "" := rcpt_line_ne_empty line hcmd
  have hpc := processCommand_rcpt_mailFrom ext line email hcmd hext
  have hD : strStartsWith (strToUpper "DATA") "DATA" = true := by decide
  refine ⟨hpc, ?_, by simp [processCommand, hD]⟩
  have hstep := sessionStep_of_rcptResult ext parse targets s line email hne (hst ▸ hpc)
  rw [hstep, if_neg (by simp [hmiss])]

/-- Witness for C10: a rejected recipient still moves the state machine to
`RcptTo`, and DATA is then answered with 354. -/
theorem c10_rcpt_state_transition_witness :
    sessionStep extTest parseOkTest ["target@example.com"] sMailFrom
      "RCPT TO:<evil@example.net>" =
      StepOut.next { sMailFrom with protoState := SmtpState.rcptTo, acceptedRecipient := "" }
        [Ev.write "550 No such user here"] ∧
    processCommand extTest SmtpState.rcptTo "DATA" =
      (SmtpState.data, ["354 Start mail input; end with <CRLF>.<CRLF>"],
        SmtpCommandResult.dataStart) := by
  have h := c10_rcpt_state_transition extTest parseOkTest ["target@example.com"] sMailFrom
    "RCPT TO:<evil@example.net>" "evil@example.net" rfl (by decide) (by decide) (by decide)
  exact ⟨h.2.1, h.2.2⟩

end MailLaser
